import Mathlib

/-!
Verification development for the Excel-layout classification and extraction
pipeline of the GUI_PySide6 repository (`src/controllers/excel_process_controller.py`
and the `src/utils/process_excel/*` helpers).  Each definition is a shallow
embedding of the corresponding Python function; external collaborators
(spreadsheet automation, LLM services, the filesystem) are passed in as
explicit parameters, mirroring the narrow interfaces in spec §6.
-/

namespace GuiPySide6

/-! ## Master-detail chunk-size rule

Embedding of the `rows_per_file` computation in
`ExcelProcessHandler._process_master_detail_layout`
(src/controllers/excel_process_controller.py lines 407-413):

```python
if row_count <= 150:
    rows_per_file = min(row_count, 40)
elif row_count <= 400:
    rows_per_file = min(70, max(40, int(row_count / 6)))
else:
    rows_per_file = min(80, max(40, int(row_count / (row_count // 70))))
```

Python's `int(a / b)` for positive integers truncates toward zero, which is
natural-number division; `//` is floor division.  `row_count` comes from
`get_excel_row_count`, a non-negative integer. -/
def rows_per_file_calc (row_count : Nat) : Nat :=
  if row_count ≤ 150 then
    min row_count 40
  else if row_count ≤ 400 then
    min 70 (max 40 (row_count / 6))
  else
    min 80 (max 40 (row_count / (row_count / 70)))

/-- Clamp of `x` into the interval `[lo, hi]`, the operation named by the spec
sentence "chunk = clamp(row_count/6, 40, 70)". -/
def clamp (lo hi x : Nat) : Nat :=
  max lo (min hi x)

/-- Restatement of the spec's three-tier chunk-size rule (spec §4.6), written
from the spec's words, to be compared with `rows_per_file_calc`:
≤150 rows → `min(row_count, 40)`; ≤400 rows → `clamp(row_count/6, 40, 70)`;
otherwise `clamp(row_count/(row_count//70), 40, 80)`. -/
def chunk_rule_spec (row_count : Nat) : Nat :=
  if row_count ≤ 150 then
    min row_count 40
  else if row_count ≤ 400 then
    clamp 40 70 (row_count / 6)
  else
    clamp 40 80 (row_count / (row_count / 70))

/-! ## Layout routing

Embedding of the branch structure of `ExcelProcessHandler._process_single_sheet`
(lines 258-311): layout 1 runs the flat processor, layout 2 the master-detail
processor, layout 3 the block processor, and every other layout id (including
the default id 0) falls into the final `else` branch, which runs
`_process_master_detail_layout`. -/
inductive LayoutProcessor where
  | flat
  | master_detail
  | block
deriving DecidableEq

/-- Processor selected by `_process_single_sheet` for a given `layout_type`,
following the `if layout_type == 1 / elif 2 / elif 3 / else` chain of the
source. -/
def route_layout (layout_type : Int) : LayoutProcessor :=
  if layout_type = 1 then LayoutProcessor.flat
  else if layout_type = 2 then LayoutProcessor.master_detail
  else if layout_type = 3 then LayoutProcessor.block
  else LayoutProcessor.master_detail

/-! ## JSON values

Minimal model of the Python values produced by `json.loads`, sufficient for the
layout-classification replies and the markdown-extraction replies handled by
the controller.  JSON numbers are modelled as integers (the only numbers the
controller coerces are integer layout ids). -/
inductive JValue where
  | null
  | bool (b : Bool)
  | num (n : Int)
  | str (s : String)
  | arr (elems : List JValue)
  | obj (kvs : List (String × JValue))

/-- Lookup of `key` in a Python dict modelled as an association list (dicts
have unique keys, so first match suffices); `none` on a non-dict value. -/
def jdict_get (v : JValue) (key : String) : Option JValue :=
  match v with
  | JValue.obj kvs => (kvs.find? (fun kv => kv.1 == key)).map (fun kv => kv.2)
  | _ => none

/-- Leading and trailing whitespace removal on a character list, modelling
`str.strip()` as applied by Python's `int(str)` conversion. -/
def strip_ws (cs : List Char) : List Char :=
  ((cs.dropWhile Char.isWhitespace).reverse.dropWhile Char.isWhitespace).reverse

/-- Value of a list of decimal digit characters. -/
def digits_to_nat (ds : List Char) : Nat :=
  ds.foldl (fun a c => a * 10 + (c.toNat - 48)) 0

/-- Python `int(s)` on a string: strips whitespace, accepts an optional sign
followed by a nonempty digit run, otherwise raises ValueError (modelled as
`none`).  Digit-group underscores are not modelled. -/
def py_parse_int (s : String) : Option Int :=
  let t := strip_ws s.data
  let signed : Int × List Char :=
    match t with
    | '-' :: rest => (-1, rest)
    | '+' :: rest => (1, rest)
    | l => (1, l)
  if signed.2.isEmpty then none
  else if signed.2.all Char.isDigit then
    some (signed.1 * (digits_to_nat signed.2 : Nat))
  else none

/-- Python `int(x)` applied to a JSON value: integers pass through, booleans
become 0/1, strings are parsed, and every other shape raises (`none`). -/
def py_int_coerce (v : JValue) : Option Int :=
  match v with
  | JValue.num n => some n
  | JValue.bool b => some (if b then 1 else 0)
  | JValue.str s => py_parse_int s
  | _ => none

/-! ## Classification-reply handling

Embedding of `process_excel_files_batch` lines 172-191.  The reply of
`detect_excel_layout` is parsed with `json.loads` when it is a string; the
parse outcome (`Except.error` on a `json.loads` exception) is passed in
explicitly, since `json.loads` itself is the Python standard library:

```python
try:
    layout_dict = json.loads(layout_results) ...
except Exception:
    layout_dict = {}
for idx, sheet_info in enumerate(all_sheets_info):
    layout_num = layout_dict.get(f"index_{idx + 1}", 0)
    try: layout_num = int(layout_num)
    except: layout_num = 0
    sheet_info["layout_type"] = layout_num
```
-/
def layout_dict_of (outcome : Except String JValue) : JValue :=
  match outcome with
  | Except.ok v => v
  | Except.error _ => JValue.obj []

/-- Layout id assigned to the sheet at 0-based position `idx`: the value under
`"index_{idx+1}"` coerced with `int(...)`, defaulting to 0 when the key is
missing or the coercion raises. -/
def sheet_layout_num (outcome : Except String JValue) (idx : Nat) : Int :=
  let dict := layout_dict_of outcome
  match jdict_get dict ("index_" ++ toString (idx + 1)) with
  | none => 0
  | some v => (py_int_coerce v).getD 0

/-! ## Claim C8: defaults on unparsable or incomplete classification replies -/

/-- C8: when the classification reply fails to parse as JSON the orchestrator
proceeds with an empty mapping (every sheet gets layout id 0) without raising,
and for any parsed reply a missing `index_N` key, or a value that cannot be
coerced to an integer, yields layout id 0 for that sheet. -/
theorem classification_reply_defaults :
    (∀ err : String, layout_dict_of (Except.error err) = JValue.obj []) ∧
    (∀ (err : String) (idx : Nat), sheet_layout_num (Except.error err) idx = 0) ∧
    (∀ (kvs : List (String × JValue)) (idx : Nat),
      jdict_get (JValue.obj kvs) ("index_" ++ toString (idx + 1)) = none →
      sheet_layout_num (Except.ok (JValue.obj kvs)) idx = 0) ∧
    (∀ (kvs : List (String × JValue)) (v : JValue) (idx : Nat),
      jdict_get (JValue.obj kvs) ("index_" ++ toString (idx + 1)) = some v →
      py_int_coerce v = none →
      sheet_layout_num (Except.ok (JValue.obj kvs)) idx = 0) := by
  refine ⟨fun err => rfl, fun err idx => rfl, ?_, ?_⟩
  · intro kvs idx hmiss
    simp [sheet_layout_num, layout_dict_of, hmiss]
  · intro kvs v idx hfind hcoerce
    simp [sheet_layout_num, layout_dict_of, hfind, hcoerce]

/-- Witness for `classification_reply_defaults` at concrete replies: an
unparsable reply, a reply missing the key, and a reply whose value is the
non-numeric string "abc". -/
theorem classification_reply_defaults_witness :
    sheet_layout_num (Except.error "not json") 0 = 0 ∧
    sheet_layout_num (Except.ok (JValue.obj [])) 0 = 0 ∧
    sheet_layout_num (Except.ok (JValue.obj [("index_1", JValue.str "abc")])) 0 = 0 :=
  ⟨classification_reply_defaults.2.1 "not json" 0,
   classification_reply_defaults.2.2.1 [] 0 rfl,
   classification_reply_defaults.2.2.2 [("index_1", JValue.str "abc")]
     (JValue.str "abc") 0 rfl (by decide)⟩

/-! ## Claim C2: routing of layout id 0 -/

/-- C2 counterexample: a sheet with layout id 0 — in particular one produced
by an unparsable classification reply — is not routed through the block
processor (`_process_single_sheet` sends it to `_process_master_detail_layout`
in its final `else` branch). -/
theorem layout_zero_not_block :
    route_layout 0 ≠ LayoutProcessor.block ∧
    route_layout (sheet_layout_num (Except.error "not json") 1) ≠
      LayoutProcessor.block := by
  constructor
  · decide
  · have h : sheet_layout_num (Except.error "not json") 1 = 0 := rfl
    rw [h]
    decide

/-- C2 amended: every sheet whose layout id is not 1, 2 or 3 — hence every
sheet with the default id 0, including all sheets of a batch whose
classification reply was unparsable — is routed through the master-detail
processing path, the same processing path used for layout id 2 (only the
subsequent markdown-to-records extraction is shared with the block path). -/
theorem layout_zero_routes_master_detail :
    (∀ lt : Int, lt ≠ 1 → lt ≠ 2 → lt ≠ 3 →
      route_layout lt = LayoutProcessor.master_detail ∧
      route_layout lt = route_layout 2) ∧
    (∀ (err : String) (idx : Nat),
      route_layout (sheet_layout_num (Except.error err) idx) =
        LayoutProcessor.master_detail) := by
  constructor
  · intro lt h1 h2 h3
    unfold route_layout
    split_ifs <;> simp_all
  · intro err idx
    have h : sheet_layout_num (Except.error err) idx = 0 := rfl
    rw [h]
    decide

/-- Witness for `layout_zero_routes_master_detail` at layout id 0 and at an
unparsable reply. -/
theorem layout_zero_routes_master_detail_witness :
    route_layout 0 = LayoutProcessor.master_detail ∧
    route_layout (sheet_layout_num (Except.error "oops") 0) =
      LayoutProcessor.master_detail :=
  ⟨(layout_zero_routes_master_detail.1 0 (by decide) (by decide) (by decide)).1,
   layout_zero_routes_master_detail.2 "oops" 0⟩

/-! ## Claim C5: the chunk size equals the three-tier rule -/

/-- C5: the master-detail chunk size computed by the code equals the spec's
three-tier rule: for row_count ≤ 150 it is min(row_count, 40); for
150 < row_count ≤ 400 it is ⌊row_count/6⌋ clamped to [40, 70]; for
row_count > 400 it is ⌊row_count/(row_count//70)⌋ clamped to [40, 80]. -/
theorem chunk_size_matches_three_tier_rule (row_count : Nat) :
    rows_per_file_calc row_count = chunk_rule_spec row_count := by
  unfold rows_per_file_calc chunk_rule_spec clamp
  split_ifs <;> omega

/-! ## Claim C4: chunk-size bounds -/

/-- C4 counterexample: the claim "for every row_count > 0 the chunk size is at
least 40" fails at row_count = 1, where the code returns min(1, 40) = 1. -/
theorem chunk_size_lower_bound_fails_at_one :
    0 < 1 ∧ rows_per_file_calc 1 < 40 := by
  constructor
  · decide
  · decide

/-- C4 amended: for every row_count > 0 the chunk size is at most 80 and equals
row_count itself when row_count < 40 (hence can be as small as 1); it is at
least 40 exactly when row_count ≥ 40.  The three concrete values hold as
claimed: 100 → exactly 40, 300 → within [40,70], 1000 → within [40,80]. -/
theorem chunk_size_bounds (row_count : Nat) (hpos : 0 < row_count) :
    rows_per_file_calc row_count ≤ 80 ∧
    (40 ≤ row_count → 40 ≤ rows_per_file_calc row_count) ∧
    (row_count < 40 → rows_per_file_calc row_count = row_count) ∧
    rows_per_file_calc 100 = 40 ∧
    (40 ≤ rows_per_file_calc 300 ∧ rows_per_file_calc 300 ≤ 70) ∧
    (40 ≤ rows_per_file_calc 1000 ∧ rows_per_file_calc 1000 ≤ 80) := by
  refine ⟨?_, ?_, ?_, by decide, by decide, by decide⟩
  · unfold rows_per_file_calc
    split_ifs <;> omega
  · intro h40
    unfold rows_per_file_calc
    split_ifs <;> omega
  · intro hlt
    unfold rows_per_file_calc
    split_ifs <;> omega

/-- Witness for `chunk_size_bounds` at the concrete input row_count = 30. -/
theorem chunk_size_bounds_witness :
    rows_per_file_calc 30 ≤ 80 ∧ rows_per_file_calc 30 = 30 :=
  ⟨(chunk_size_bounds 30 (by decide)).1,
   (chunk_size_bounds 30 (by decide)).2.2.1 (by decide)⟩

/-! ## Layout grouping and processing order

Embedding of `process_excel_files_batch` lines 193-237.  A classified sheet is
represented by its name and layout id.  The Python `layout_groups` dict is
modelled as an association list built exactly as in the source: a new key is
created on first sight, a sheet is appended to its bucket otherwise. -/
structure SheetInfo where
  sheet_name : String
  layout_type : Int

/-- One step of the grouping loop:
`layout_groups.setdefault(layout_type, []).append(sheet_info)`. -/
def add_to_groups (groups : List (Int × List SheetInfo)) (s : SheetInfo) :
    List (Int × List SheetInfo) :=
  if groups.any (fun g => g.1 == s.layout_type) then
    groups.map (fun g =>
      if g.1 == s.layout_type then (g.1, g.2 ++ [s]) else g)
  else
    groups ++ [(s.layout_type, [s])]

/-- Buckets built by the third-phase grouping loop, in discovery order. -/
def layout_groups (sheets : List SheetInfo) : List (Int × List SheetInfo) :=
  sheets.foldl add_to_groups []

/-- Dict lookup `layout_groups[layout_type]`, `none` when
`layout_type not in layout_groups`. -/
def lookup_group (groups : List (Int × List SheetInfo)) (lt : Int) :
    Option (List SheetInfo) :=
  (groups.find? (fun g => g.1 == lt)).map (fun g => g.2)

/-- Fixed processing order of the fourth phase (line 211):
`process_order = [1, 3, 0, 2]`. -/
def process_order : List Int :=
  [1, 3, 0, 2]

/-- Sequence of sheets in the order the fourth-phase loop processes them:
each layout type of `process_order` in turn, skipped when its bucket is
absent, the bucket's sheets in stored order otherwise. -/
def processing_sequence (sheets : List SheetInfo) : List SheetInfo :=
  process_order.flatMap
    (fun lt => (lookup_group (layout_groups sheets) lt).getD [])

/-- Lookup in a key-preserving-mapped group list equals the mapped lookup. -/
theorem lookup_find_map_key_preserving
    (f : Int × List SheetInfo → Int × List SheetInfo)
    (hf : ∀ g, (f g).1 = g.1) (groups : List (Int × List SheetInfo)) (lt : Int) :
    (groups.map f).find? (fun g => g.1 == lt) =
      (groups.find? (fun g => g.1 == lt)).map f := by
  rw [List.find?_map]
  have hp : (fun g => g.1 == lt) ∘ f = (fun g => g.1 == lt) := by
    funext g
    simp [hf g]
  rw [hp]

/-- Effect of one grouping step on a later lookup: the sheet is appended to its
own bucket (created when absent) and every other bucket is untouched. -/
theorem lookup_add_to_groups (groups : List (Int × List SheetInfo))
    (s : SheetInfo) (lt : Int) :
    lookup_group (add_to_groups groups s) lt =
      if s.layout_type = lt then
        some ((lookup_group groups lt).getD [] ++ [s])
      else
        lookup_group groups lt := by
  unfold add_to_groups lookup_group
  cases hmem : groups.any (fun g => g.1 == s.layout_type) with
  | true =>
    rw [if_pos rfl,
      lookup_find_map_key_preserving _ (fun g => by split <;> rfl)]
    by_cases hlt : s.layout_type = lt
    · subst hlt
      rw [if_pos rfl]
      rcases hfind : groups.find? (fun g => g.1 == s.layout_type) with _ | g
      · exfalso
        rcases List.any_eq_true.mp hmem with ⟨g, hg, hgl⟩
        have hsome : (groups.find? (fun g => g.1 == s.layout_type)).isSome :=
          List.find?_isSome.mpr ⟨g, hg, hgl⟩
        rw [hfind] at hsome
        simp at hsome
      · have hkey := List.find?_some hfind
        rw [hfind]
        simp only [Option.map_some', Option.getD_some]
        rw [if_pos (by simpa using hkey)]
    · rw [if_neg hlt]
      rcases hfind : groups.find? (fun g => g.1 == lt) with _ | g
      · rw [hfind]
        rfl
      · have hkey := List.find?_some hfind
        have hg1 : g.1 = lt := by simpa using hkey
        have hne : (g.1 == s.layout_type) = false := by
          rw [hg1]
          simp only [beq_eq_false_iff_ne, ne_eq]
          exact fun hc => hlt hc.symm
        rw [hfind]
        simp only [Option.map_some']
        rw [if_neg (by simpa using hne)]
  | false =>
    rw [if_neg Bool.false_ne_true, List.find?_append]
    by_cases hlt : s.layout_type = lt
    · subst hlt
      have hnone : groups.find? (fun g => g.1 == s.layout_type) = none := by
        rcases hfind : groups.find? (fun g => g.1 == s.layout_type) with _ | g
        · exact hfind
        · have hg := List.find?_some hfind
          have hin := List.mem_of_find?_eq_some hfind
          have : groups.any (fun g => g.1 == s.layout_type) = true :=
            List.any_eq_true.mpr ⟨g, hin, hg⟩
          rw [hmem] at this
          cases this
      rw [hnone, if_pos rfl]
      simp
    · rw [if_neg hlt]
      have hsingle : List.find? (fun g => g.1 == lt) [(s.layout_type, [s])] = none := by
        have hne : ((s.layout_type, [s]).1 == lt) = false := by
          simp only [beq_eq_false_iff_ne, ne_eq]
          exact hlt
        simp [List.find?, hne]
      rw [hsingle]
      cases groups.find? (fun g => g.1 == lt) <;> simp

/-- Lookup after folding the grouping loop over `sheets`, generalized over the
starting accumulator. -/
theorem lookup_groups_foldl (sheets : List SheetInfo)
    (acc : List (Int × List SheetInfo)) (lt : Int) :
    lookup_group (sheets.foldl add_to_groups acc) lt =
      match lookup_group acc lt with
      | some g => some (g ++ sheets.filter (fun s => s.layout_type == lt))
      | none =>
          if sheets.any (fun s => s.layout_type == lt) then
            some (sheets.filter (fun s => s.layout_type == lt))
          else none := by
  induction sheets generalizing acc with
  | nil =>
    rcases h : lookup_group acc lt with _ | g <;> simp [h]
  | cons s rest ih =>
    rw [List.foldl_cons, ih, lookup_add_to_groups]
    by_cases hs : s.layout_type = lt
    · simp only [if_pos hs]
      rcases h : lookup_group acc lt with _ | g <;>
        simp [h, hs, List.filter_cons, List.any_cons]
    · have hs' : (s.layout_type == lt) = false := by simpa using hs
      simp only [if_neg hs]
      rcases h : lookup_group acc lt with _ | g <;>
        simp [h, hs', List.filter_cons, List.any_cons]

/-- Bucket lookup over the groups built from scratch equals an original-order
filter, present exactly when some sheet has that layout id. -/
theorem lookup_layout_groups (sheets : List SheetInfo) (lt : Int) :
    lookup_group (layout_groups sheets) lt =
      if sheets.any (fun s => s.layout_type == lt) then
        some (sheets.filter (fun s => s.layout_type == lt))
      else none := by
  unfold layout_groups
  rw [lookup_groups_foldl]
  rfl

/-- Bucket contents with the absent-bucket default applied: always the
original-order filter of the sheets by that layout id. -/
theorem lookup_layout_groups_getD (sheets : List SheetInfo) (lt : Int) :
    (lookup_group (layout_groups sheets) lt).getD [] =
      sheets.filter (fun s => s.layout_type == lt) := by
  rw [lookup_layout_groups]
  cases hany : sheets.any (fun s => s.layout_type == lt) with
  | true => simp [hany]
  | false =>
    have hnil : sheets.filter (fun s => s.layout_type == lt) = [] :=
      List.filter_eq_nil_iff.mpr (List.any_eq_false.mp hany)
    simp [hany, hnil]

/-- Dropping the absent layout ids from the priority list does not change the
concatenation of buckets, because an absent id contributes an empty filter. -/
theorem flatMap_filter_present (l : List Int) (sheets : List SheetInfo) :
    (l.filter (fun lt => sheets.any (fun s => s.layout_type == lt))).flatMap
        (fun lt => sheets.filter (fun s => s.layout_type == lt)) =
      l.flatMap (fun lt => sheets.filter (fun s => s.layout_type == lt)) := by
  induction l with
  | nil => rfl
  | cons lt rest ih =>
    cases hany : sheets.any (fun s => s.layout_type == lt) with
    | true => simp [List.filter_cons, hany, ih]
    | false =>
      have hnil : sheets.filter (fun s => s.layout_type == lt) = [] :=
        List.filter_eq_nil_iff.mpr (List.any_eq_false.mp hany)
      simp [List.filter_cons, hany, ih, hnil]

/-! ## Claim C3: fixed processing order with stable buckets -/

/-- C3: the batch loop processes the layout buckets in exactly the fixed
priority order [1, 3, 0, 2] restricted to the layout ids present (absent
buckets are skipped), and within each bucket the sheets appear in their
original discovery order (the bucket is the original-order filter). -/
theorem processing_order_fixed (sheets : List SheetInfo) :
    processing_sequence sheets =
      (process_order.filter
          (fun lt => sheets.any (fun s => s.layout_type == lt))).flatMap
        (fun lt => sheets.filter (fun s => s.layout_type == lt)) := by
  rw [flatMap_filter_present]
  unfold processing_sequence
  congr 1
  funext lt
  exact lookup_layout_groups_getD sheets lt

/-! ## Flat-layout row splitting

Embedding of `split_excel_by_rows_with_header`
(src/utils/process_excel/process_flat_layout.py lines 40-129), restricted to
the rows each produced chunk file contains (formatting, comments, widths and
heights are presentation only).  Rows are 1-based in the source; here the
sheet is a list and row r is element r-1.  The loop is

```python
for start_row in range(header_index + 1, total_rows + 1, rows_per_file):
    # copy rows 1..header_index, then rows start_row..min(start_row+rows_per_file-1, total_rows)
```
-/
def py_range (start stop step : Nat) : List Nat :=
  List.range' start ((stop - start + step - 1) / step) step

/-- Chunk files produced by one call, each given as the list of rows it holds:
the header block `rows 1..header_index` followed by the consecutive slice of
`rows_per_file` (or fewer, at the end) rows from `start_row` on. -/
def split_excel_rows_with_header {α : Type} (rows : List α)
    (header_index rows_per_file : Nat) : List (List α) :=
  (py_range (header_index + 1) (rows.length + 1) rows_per_file).map
    (fun start_row =>
      rows.take header_index ++ (rows.drop (start_row - 1)).take rows_per_file)

/-! ## Claim C6: flat-layout chunk count and shape -/

/-- C6: for a sheet with detected 0-based header index h (the controller passes
`header_index + 1`, see `_process_flat_layout` line 332) and d ≥ 1 data rows
strictly after the header, splitting with rows_per_file = 5 yields exactly
⌈d/5⌉ = (d+4)/5 chunks, and every chunk is the rows up to and including the
header followed by at most 5 consecutive rows taken strictly after the
header. -/
theorem flat_split_chunks {α : Type} (rows : List α) (h : Nat)
    (hh : h + 1 ≤ rows.length) (_hd : 1 ≤ rows.length - (h + 1)) :
    (split_excel_rows_with_header rows (h + 1) 5).length
        = (rows.length - (h + 1) + 4) / 5 ∧
    ∀ c ∈ split_excel_rows_with_header rows (h + 1) 5,
      ∃ s, h + 1 ≤ s ∧ c = rows.take (h + 1) ++ (rows.drop s).take 5 ∧
        ((rows.drop s).take 5).length ≤ 5 := by
  constructor
  · unfold split_excel_rows_with_header py_range
    rw [List.length_map, List.length_range']
    congr 1
    omega
  · intro c hc
    unfold split_excel_rows_with_header at hc
    rcases List.mem_map.mp hc with ⟨start_row, hmem, hchunk⟩
    rcases List.mem_range'.mp hmem with ⟨i, _, hstart⟩
    refine ⟨start_row - 1, ?_, ?_, ?_⟩
    · omega
    · rw [← hchunk]
    · exact List.length_take_le 5 _

/-- Witness for `flat_split_chunks`: a sheet of 26 rows with 0-based header
index 2 (so 23 data rows) splits into exactly 5 chunks. -/
theorem flat_split_chunks_witness :
    (split_excel_rows_with_header (List.range 26) 3 5).length = 5 := by
  have h := (flat_split_chunks (List.range 26) 2 (by simp) (by simp)).1
  simpa using h

/-! ## Extracted records

A fee record is a Python dict, modelled as an association list in insertion
order.  `setField` is dict item assignment: an existing key keeps its position
and gets the new value, a new key is appended at the end. -/
abbrev Record := List (String × JValue)

/-- Dict item assignment `r[k] = v`. -/
def setField : Record → String → JValue → Record
  | [], k, v => [(k, v)]
  | kv :: rest, k, v =>
      if kv.1 == k then (k, v) :: rest else kv :: setField rest k v

/-- Dict lookup `r.get(k)` on a record. -/
def getField (r : Record) (k : String) : Option JValue :=
  (r.find? (fun kv => kv.1 == k)).map (fun kv => kv.2)

/-- Assignment followed by lookup of the same key yields the assigned value. -/
theorem getField_setField (r : Record) (k : String) (v : JValue) :
    getField (setField r k v) k = some v := by
  induction r with
  | nil => simp [setField, getField]
  | cons kv rest ih =>
    by_cases hk : kv.1 == k
    · simp [setField, getField, hk]
    · simp only [setField, hk, if_false, Bool.false_eq_true]
      unfold getField at ih ⊢
      rw [List.find?_cons_of_neg _ (by simpa using hk)]
      exact ih

/-- String-dict lookup with default, `mapping.get(k, d)`. -/
def dict_getD (m : List (String × String)) (k d : String) : String :=
  ((m.find? (fun kv => kv.1 == k)).map (fun kv => kv.2)).getD d

/-! ## Markdown-to-records conversion

Embedding of `extract_info_from_md` (src/utils/model_md_to_json.py lines
21-45) and `_extract_block_layout_data`
(src/controllers/excel_process_controller.py lines 493-540).  The filesystem
(`fs`, yielding `none` for a missing or unreadable file) and the extraction
API (`llm`, which may raise) are external collaborators passed in as
parameters, as is the `json.loads` parser (`parse`). -/
def extract_info_from_md (fs : String → Option String)
    (llm : String → Except String String) (md_file_path : String) :
    Except String String :=
  match fs md_file_path with
  | none => Except.ok "\x7b\x7d"
  | some content =>
      if content = "" then Except.ok "\x7b\x7d" else llm content

/-- Python call semantics for a function defined with exactly one positional
parameter: an argument list of any other length raises TypeError. -/
def py_call1 (f : String → Except String String) (args : List String) :
    Except String String :=
  match args with
  | [a] => f a
  | _ => Except.error "TypeError: takes 1 positional argument"

/-- Test for a JSON object (a Python dict). -/
def is_json_obj : JValue → Bool
  | JValue.obj _ => true
  | _ => false

/-- Field-setting loop `for item in display_data: item["源文件"] = display_file`
(lines 531-532): when some element is not a dict the assignment raises, the
enclosing `except` fires, and the caller gets `[]` (modelled by `none`). -/
def set_source_file_all (items : List JValue) (display_file : String) :
    Option (List Record) :=
  if items.all is_json_obj then
    some (items.map (fun j =>
      match j with
      | JValue.obj kvs => setField kvs "源文件" (JValue.str display_file)
      | _ => []))
  else none

/-- Selection of `display_data` in `_extract_block_layout_data` (lines
517-527): a dict yields the array under 费用明细 when present and is wrapped
as a single-element array otherwise; a list is used as is; anything else
leaves `display_data` empty.  A non-array value under 费用明细 contributes no
records (iterating it either raises into the `except` or yields nothing). -/
def display_data_of (parsed : JValue) : List JValue :=
  match parsed with
  | JValue.obj kvs =>
      match (kvs.find? (fun kv => kv.1 == "费用明细")).map (fun kv => kv.2) with
      | some (JValue.arr xs) => xs
      | some _ => []
      | none => [JValue.obj kvs]
  | JValue.arr xs => xs
  | _ => []

/-- Body of `_extract_block_layout_data` from the point where the JSON reply
has been parsed (lines 517-534): select `display_data`, then set 源文件 on
every element to `original_file_mapping.get(file_path, file_path)`. -/
def extract_display_data (parsed : JValue) (mapping : List (String × String))
    (file_path : String) : List Record :=
  match set_source_file_all (display_data_of parsed)
      (dict_getD mapping file_path file_path) with
  | some recs => recs
  | none => []

/-- Full embedding of `_extract_block_layout_data` (lines 493-540), including
the call `extract_info_from_md("", markdown_content)` at line 508, which
passes two positional arguments to the one-parameter function of
src/utils/model_md_to_json.py line 21.  Any exception is caught and yields
`[]`. -/
def extract_block_layout_data (fs : String → Option String)
    (llm : String → Except String String)
    (parse : String → Except String JValue) (mapping : List (String × String))
    (markdown_content file_path : String) : List Record :=
  match py_call1 (extract_info_from_md fs llm) ["", markdown_content] with
  | Except.error _ => []
  | Except.ok json_str =>
      match parse json_str with
      | Except.error _ => []
      | Except.ok parsed => extract_display_data parsed mapping file_path

/-! ## Claim C1: Markdown-to-records conversion for block and master-detail
sheets -/

/-- C1 evidence: `_extract_block_layout_data` returns the empty list for every
markdown content, file path, filesystem, LLM and parser, because the call
`extract_info_from_md("", markdown_content)` passes two positional arguments
to a function defined with one parameter and therefore raises TypeError into
the surrounding `except`.  The claimed behaviour (returning the 费用明细
array, wrapping a keyless object, tagging 源文件) is unreachable. -/
theorem block_extraction_always_empty (fs : String → Option String)
    (llm : String → Except String String)
    (parse : String → Except String JValue) (mapping : List (String × String))
    (markdown_content file_path : String) :
    extract_block_layout_data fs llm parse mapping markdown_content file_path
      = [] :=
  rfl

/-! ## Single-sheet processing and the source-file invariant

Embedding of `_process_single_sheet` (lines 240-311) restricted to the data
that reaches the batch result.  The externally produced artefacts are passed
in: the flat chunk images and the records the shared extraction worker
returns for them, the block image, the master-detail images, and the outcome
of the markdown→structured-JSON step (`md_json_outcome`, the
`extract_info_from_md` call combined with `json.loads`; in the current source
this outcome is always an error by `block_extraction_always_empty`, and it is
kept as a parameter so the invariant also covers a repaired call). -/
structure SheetOutcome where
  processor : LayoutProcessor
  files : List String
  data : List Record

/-- Records produced by `_extract_block_layout_data` as a function of the
markdown→JSON outcome. -/
def extract_block_data_from_outcome (outcome : Except String JValue)
    (mapping : List (String × String)) (file_path : String) : List Record :=
  match outcome with
  | Except.error _ => []
  | Except.ok parsed => extract_display_data parsed mapping file_path

/-- Branch structure of `_process_single_sheet`: layout 1 tags and merges the
flat-extraction records (only when chunk images exist), layouts 2 and 3 and
the default branch merge the records of the markdown→records conversion. -/
def process_single_sheet (mapping : List (String × String))
    (original_file : String) (layout_type : Int)
    (flat_image_files : List String) (flat_records : List Record)
    (block_image_file : String) (md_image_files : List String)
    (md_json_outcome : Except String JValue) : SheetOutcome :=
  if layout_type = 1 then
    let display_file := dict_getD mapping original_file original_file
    { processor := LayoutProcessor.flat
      files := flat_image_files
      data :=
        if flat_image_files.isEmpty then []
        else flat_records.map (fun r => setField r "源文件" (JValue.str display_file)) }
  else if layout_type = 2 then
    { processor := LayoutProcessor.master_detail
      files := md_image_files
      data := extract_block_data_from_outcome md_json_outcome mapping original_file }
  else if layout_type = 3 then
    { processor := LayoutProcessor.block
      files := [block_image_file]
      data := extract_block_data_from_outcome md_json_outcome mapping original_file }
  else
    { processor := LayoutProcessor.master_detail
      files := md_image_files
      data := extract_block_data_from_outcome md_json_outcome mapping original_file }

/-- Every record the markdown→records conversion emits carries 源文件 equal to
the mapping lookup of the processed file. -/
theorem extract_display_data_source (parsed : JValue)
    (mapping : List (String × String)) (file_path : String) :
    ∀ r ∈ extract_display_data parsed mapping file_path,
      getField r "源文件"
        = some (JValue.str (dict_getD mapping file_path file_path)) := by
  intro r hr
  unfold extract_display_data at hr
  rcases hso : set_source_file_all (display_data_of parsed)
      (dict_getD mapping file_path file_path) with _ | recs
  · rw [hso] at hr
    exact absurd hr (List.not_mem_nil r)
  · rw [hso] at hr
    unfold set_source_file_all at hso
    by_cases hall : (display_data_of parsed).all is_json_obj
    · rw [if_pos hall] at hso
      injection hso with hso
      rw [← hso] at hr
      rcases List.mem_map.mp hr with ⟨j, hj, hmap⟩
      have hobj := List.all_eq_true.mp hall j hj
      cases j with
      | obj kvs =>
          rw [← hmap]
          exact getField_setField kvs "源文件" _
      | null => simp [is_json_obj] at hobj
      | bool b => simp [is_json_obj] at hobj
      | num n => simp [is_json_obj] at hobj
      | str s => simp [is_json_obj] at hobj
      | arr xs => simp [is_json_obj] at hobj
    · rw [if_neg hall] at hso
      exact Option.noConfusion hso

/-- Every record of `_extract_block_layout_data`, as a function of the
markdown→JSON outcome, carries 源文件 equal to the mapping lookup. -/
theorem block_outcome_source (outcome : Except String JValue)
    (mapping : List (String × String)) (file_path : String) :
    ∀ r ∈ extract_block_data_from_outcome outcome mapping file_path,
      getField r "源文件"
        = some (JValue.str (dict_getD mapping file_path file_path)) := by
  intro r hr
  cases outcome with
  | error e => exact absurd hr (List.not_mem_nil r)
  | ok parsed => exact extract_display_data_source parsed mapping file_path r hr

/-! ## Claim C9: every merged record traces back to its original input file -/

/-- C9: every record in the data a single-sheet run hands to the orchestrator
has 源文件 set (before the merge) to the original input file's path — the
`original_file_mapping` value for the processed file when an entry exists, the
processed file path itself otherwise — for every layout branch and every
external extraction outcome. -/
theorem source_file_invariant (mapping : List (String × String))
    (original_file : String) (layout_type : Int)
    (flat_image_files : List String) (flat_records : List Record)
    (block_image_file : String) (md_image_files : List String)
    (md_json_outcome : Except String JValue) :
    ∀ r ∈ (process_single_sheet mapping original_file layout_type
        flat_image_files flat_records block_image_file md_image_files
        md_json_outcome).data,
      getField r "源文件"
        = some (JValue.str (dict_getD mapping original_file original_file)) := by
  intro r hr
  unfold process_single_sheet at hr
  split_ifs at hr
  · replace hr : r ∈ ([] : List Record) := hr
    exact absurd hr (List.not_mem_nil r)
  · replace hr : r ∈ flat_records.map (fun r =>
        setField r "源文件"
          (JValue.str (dict_getD mapping original_file original_file))) := hr
    rcases List.mem_map.mp hr with ⟨r0, _, hmap⟩
    rw [← hmap]
    exact getField_setField r0 "源文件" _
  · replace hr :
        r ∈ extract_block_data_from_outcome md_json_outcome mapping original_file := hr
    exact block_outcome_source md_json_outcome mapping original_file r hr
  · replace hr :
        r ∈ extract_block_data_from_outcome md_json_outcome mapping original_file := hr
    exact block_outcome_source md_json_outcome mapping original_file r hr
  · replace hr :
        r ∈ extract_block_data_from_outcome md_json_outcome mapping original_file := hr
    exact block_outcome_source md_json_outcome mapping original_file r hr

/-- Witness for `source_file_invariant`: a flat-layout sheet with one chunk
image and one extracted record, no mapping entry, original file "a.xlsx". -/
theorem source_file_invariant_witness :
    getField [("金额", JValue.str "1.00"), ("源文件", JValue.str "a.xlsx")] "源文件"
      = some (JValue.str "a.xlsx") := by
  have h := source_file_invariant [] "a.xlsx" 1 ["img.png"]
    [[("金额", JValue.str "1.00")]] "b.png" [] (Except.error "TypeError")
  exact h [("金额", JValue.str "1.00"), ("源文件", JValue.str "a.xlsx")]
    (by simp [process_single_sheet, setField, dict_getD])

/-! ## Amount extraction and sum-consistency check (TableValidator)

Embedding of `TableValidator.extract_amounts` and
`TableValidator.check_sum_consistency`
(src/utils/table_corrector_multi.py lines 132-171).  `extract_amounts` runs
`re.findall` with the pattern

  \b\d\x7b1,3\x7d(?:,\d\x7b3\x7d)*(?:\.\d\x7b1,4\x7d)?\b

over the table HTML, strips thousands commas, converts with `float`, and
keeps values in [0.01, 1000000].  The matcher below implements Python's
leftmost, greedy-with-backtracking semantics for exactly this pattern:
candidate consumptions are enumerated in the engine's preference order
(longest digit run of 1-3 first, most `,ddd` groups first, longest decimal
part of 1-4 digits first, then the absent decimal), and the first candidate
whose tail satisfies the final word-boundary wins.  The word-character
classifier used by `\b` is a parameter `w` (Python's `\w` is a Unicode
property table; `ascii_word_char` below instantiates it for ASCII text, on
which the two agree).  Digits are ASCII digits, and Python floats are
modelled as exact rationals — the claim's quantities (tolerance 0.01, sums
near 1000) are far from any float-rounding boundary. -/
def ascii_word_char (c : Char) : Bool :=
  c.isAlphanum || c == '_'

/-- Candidate consumptions of `\d\x7b1,3\x7d` at the head of `cs`, greedy
order: the longest available run (at most 3) first, down to one digit;
empty when no digit leads. -/
def int_cands (cs : List Char) : List (List Char × List Char) :=
  let n := min (cs.takeWhile Char.isDigit).length 3
  (List.range n).map (fun i => (cs.take (n - i), cs.drop (n - i)))

/-- Candidate consumptions of `(?:,\d\x7b3\x7d)*`, greedy order: the most
consecutive `,ddd` groups first, down to zero groups. -/
def group_cands : List Char → List (List Char × List Char)
  | ',' :: c1 :: c2 :: c3 :: rest =>
      if c1.isDigit && c2.isDigit && c3.isDigit then
        ((group_cands rest).map
            (fun gr => (',' :: c1 :: c2 :: c3 :: gr.1, gr.2)))
          ++ [([], ',' :: c1 :: c2 :: c3 :: rest)]
      else [([], ',' :: c1 :: c2 :: c3 :: rest)]
  | cs => [([], cs)]

/-- Candidate consumptions of `(?:\.\d\x7b1,4\x7d)?`, greedy order: a dot with
the longest digit run (at most 4) first, down to one digit, then the absent
alternative. -/
def frac_cands (cs : List Char) : List (List Char × List Char) :=
  match cs with
  | '.' :: rest =>
      let n := min (rest.takeWhile Char.isDigit).length 4
      ((List.range n).map (fun i =>
          ('.' :: rest.take (n - i), rest.drop (n - i)))) ++ [([], '.' :: rest)]
  | cs => [([], cs)]

/-- Final `\b` after the last matched character (always a digit, a word
character): satisfied at end of input or before a non-word character. -/
def end_boundary (w : Char → Bool) (rest : List Char) : Bool :=
  match rest with
  | [] => true
  | c :: _ => !w c

/-- Greedy backtracking match of the amount pattern at the current position
(the leading `\b` is checked by the scanner): the token and the remaining
input, or `none`. -/
def match_amount_at (w : Char → Bool) (cs : List Char) :
    Option (List Char × List Char) :=
  (int_cands cs).findSome? (fun ic =>
    (group_cands ic.2).findSome? (fun gc =>
      (frac_cands gc.2).findSome? (fun fc =>
        if end_boundary w fc.2 then some (ic.1 ++ gc.1 ++ fc.1, fc.2)
        else none)))

/-- Scan of `re.findall`: try each position left to right, requiring a word
boundary (previous character non-word) before a match attempt; on success
continue after the match (every token is nonempty).  `fuel` bounds the
recursion and is initialized to the input length. -/
def scan_amounts (w : Char → Bool) : Nat → List Char → Bool → List (List Char)
  | 0, _, _ => []
  | _ + 1, [], _ => []
  | fuel + 1, c :: rest, prevWord =>
      if prevWord then
        scan_amounts w fuel rest (w c)
      else
        match match_amount_at w (c :: rest) with
        | some (tok, r) => tok :: scan_amounts w fuel r true
        | none => scan_amounts w fuel rest (w c)

/-- All tokens `re.findall(amount_pattern, table_html)` returns, in order. -/
def find_all_amounts (w : Char → Bool) (s : String) : List (List Char) :=
  scan_amounts w s.data.length s.data false

/-- Exact value of a matched token after comma removal: an optional decimal
point splitting integer and fractional digits. -/
def parse_decimal_chars (cs : List Char) : ℚ :=
  let intPart := cs.takeWhile (fun c => c ≠ '.')
  let rest := cs.dropWhile (fun c => c ≠ '.')
  match rest with
  | '.' :: frac =>
      (digits_to_nat intPart : ℚ) + (digits_to_nat frac : ℚ) / ((10 : ℚ) ^ frac.length)
  | _ => (digits_to_nat intPart : ℚ)

/-- Range filter `0.01 <= amount <= 1000000` of `extract_amounts`. -/
def in_range (amount : ℚ) : Bool :=
  decide ((1 : ℚ)/100 ≤ amount ∧ amount ≤ 1000000)

/-- Value kept for one matched token: comma removal, numeric conversion, and
the plausible-range filter. -/
def amount_of_token (tok : List Char) : Option ℚ :=
  if in_range (parse_decimal_chars (tok.filter (fun c => c ≠ ','))) then
    some (parse_decimal_chars (tok.filter (fun c => c ≠ ',')))
  else none

/-- Embedding of `TableValidator.extract_amounts`: matched tokens, commas
stripped, converted to numbers, filtered to the plausible range
[0.01, 1000000]. -/
def extract_amounts (w : Char → Bool) (table_html : String) : List ℚ :=
  (find_all_amounts w table_html).filterMap amount_of_token

/-- Return value of `check_sum_consistency`: the boolean verdict, the
calculated sum, and the delta the notes string reports (absent without an
expected sum). -/
structure SumCheck where
  is_consistent : Bool
  calculated_sum : ℚ
  delta : Option ℚ

/-- Embedding of `TableValidator.check_sum_consistency` (lines 152-171):
sums the extracted amounts and, when an expected sum is given, compares with
absolute tolerance 0.01. -/
def check_sum_consistency (w : Char → Bool) (table_html : String)
    (expected_sum : Option ℚ) : SumCheck :=
  let calculated_sum := (extract_amounts w table_html).sum
  match expected_sum with
  | none =>
      { is_consistent := true
        calculated_sum := calculated_sum
        delta := none }
  | some e =>
      let d := |calculated_sum - e|
      { is_consistent := decide (d ≤ 1/100)
        calculated_sum := calculated_sum
        delta := some d }

/-! ## Claim C7: sum-consistency tolerance -/

/-- C7: with a non-None expected sum, `check_sum_consistency` reports
consistent exactly when the sum of the extracted amounts is within 0.01 of
the expected sum; in particular, against an expected sum of 1000.00 a
calculated sum in [999.995, 1000.005] is consistent, and a calculated sum of
990.00 is inconsistent with a reported delta of 10.00. -/
theorem sum_consistency_tolerance (w : Char → Bool) (table_html : String)
    (e : ℚ) :
    ((check_sum_consistency w table_html (some e)).is_consistent = true ↔
      |(extract_amounts w table_html).sum - e| ≤ 1/100) ∧
    (999995/1000 ≤ (extract_amounts w table_html).sum →
      (extract_amounts w table_html).sum ≤ 1000005/1000 →
      (check_sum_consistency w table_html (some 1000)).is_consistent = true) ∧
    ((extract_amounts w table_html).sum = 990 →
      (check_sum_consistency w table_html (some 1000)).is_consistent = false ∧
      (check_sum_consistency w table_html (some 1000)).delta = some 10) := by
  refine ⟨?_, ?_, ?_⟩
  · unfold check_sum_consistency
    simp
  · intro hlo hhi
    unfold check_sum_consistency
    simp only [decide_eq_true_eq]
    rw [abs_le]
    constructor <;> linarith
  · intro hsum
    unfold check_sum_consistency
    rw [hsum]
    norm_num

/-- Witness for `sum_consistency_tolerance`: a table cell holding 999.995 is
consistent with an expected sum of 1000.00; a cell holding 990.00 is not,
with delta 10.00. -/
theorem sum_consistency_tolerance_witness :
    (check_sum_consistency ascii_word_char "<td>999.995</td>"
        (some 1000)).is_consistent = true ∧
    (check_sum_consistency ascii_word_char "<td>990.00</td>"
        (some 1000)).is_consistent = false ∧
    (check_sum_consistency ascii_word_char "<td>990.00</td>"
        (some 1000)).delta = some 10 := by
  have hfind1 : find_all_amounts ascii_word_char "<td>999.995</td>"
      = [['9', '9', '9', '.', '9', '9', '5']] := by decide
  have hfind2 : find_all_amounts ascii_word_char "<td>990.00</td>"
      = [['9', '9', '0', '.', '0', '0']] := by decide
  have hparse1 : parse_decimal_chars
      (['9', '9', '9', '.', '9', '9', '5'].filter (fun c => c ≠ ','))
      = 999995/1000 := by
    have hf : ['9', '9', '9', '.', '9', '9', '5'].filter (fun c => c ≠ ',')
        = ['9', '9', '9', '.', '9', '9', '5'] := by decide
    have ht : ['9', '9', '9', '.', '9', '9', '5'].takeWhile (fun c => c ≠ '.')
        = ['9', '9', '9'] := by decide
    have hd : ['9', '9', '9', '.', '9', '9', '5'].dropWhile (fun c => c ≠ '.')
        = ['.', '9', '9', '5'] := by decide
    have hn1 : digits_to_nat ['9', '9', '9'] = 999 := by decide
    have hn2 : digits_to_nat ['9', '9', '5'] = 995 := by decide
    rw [hf]
    unfold parse_decimal_chars
    rw [ht, hd]
    simp only [List.length_cons, List.length_nil]
    rw [hn1, hn2]
    norm_num
  have hparse2 : parse_decimal_chars
      (['9', '9', '0', '.', '0', '0'].filter (fun c => c ≠ ','))
      = 990 := by
    have hf : ['9', '9', '0', '.', '0', '0'].filter (fun c => c ≠ ',')
        = ['9', '9', '0', '.', '0', '0'] := by decide
    have ht : ['9', '9', '0', '.', '0', '0'].takeWhile (fun c => c ≠ '.')
        = ['9', '9', '0'] := by decide
    have hd : ['9', '9', '0', '.', '0', '0'].dropWhile (fun c => c ≠ '.')
        = ['.', '0', '0'] := by decide
    have hn1 : digits_to_nat ['9', '9', '0'] = 990 := by decide
    have hn2 : digits_to_nat ['0', '0'] = 0 := by decide
    rw [hf]
    unfold parse_decimal_chars
    rw [ht, hd]
    simp only [List.length_cons, List.length_nil]
    rw [hn1, hn2]
    norm_num
  have htok1 : amount_of_token ['9', '9', '9', '.', '9', '9', '5']
      = some (999995/1000) := by
    unfold amount_of_token
    rw [hparse1]
    have hrange : in_range (999995/1000) = true := by
      unfold in_range
      rw [decide_eq_true_eq]
      norm_num
    rw [hrange]
    simp
  have htok2 : amount_of_token ['9', '9', '0', '.', '0', '0'] = some 990 := by
    unfold amount_of_token
    rw [hparse2]
    have hrange : in_range (990 : ℚ) = true := by
      unfold in_range
      rw [decide_eq_true_eq]
      norm_num
    rw [hrange]
    simp
  have hsum1 : (extract_amounts ascii_word_char "<td>999.995</td>").sum
      = 999995/1000 := by
    unfold extract_amounts
    rw [hfind1]
    simp [htok1]
  have hsum2 : (extract_amounts ascii_word_char "<td>990.00</td>").sum = 990 := by
    unfold extract_amounts
    rw [hfind2]
    simp [htok2]
  have h1 := (sum_consistency_tolerance ascii_word_char "<td>999.995</td>" 1000).2.1
  have h2 := (sum_consistency_tolerance ascii_word_char "<td>990.00</td>" 1000).2.2
    hsum2
  exact ⟨h1 (by rw [hsum1]) (by rw [hsum1]; norm_num), h2.1, h2.2⟩

/-! ## Empty-sheet inspection

Embedding of `ExcelProcessHandler._is_excel_empty` (lines 571-602).  The
xlwings inspection of the file — opening the workbook and reading
`used_range.value` — is the external part; its outcome is passed in as an
`Except`: an exception, or the used-range value (`none` for a blank range,
otherwise the grid of optional cell texts).  The `except` branch of the
source returns False ("如果出错，假设文件不为空，继续处理"). -/
def grid_row_has_content (row : List (Option String)) : Bool :=
  row.any (fun cell =>
    match cell with
    | some s => !s.trim.isEmpty
    | none => false)

/-- Result of `_is_excel_empty` as a function of the inspection outcome. -/
def is_excel_empty
    (inspection : Except String (Option (List (List (Option String))))) : Bool :=
  match inspection with
  | Except.error _ => false
  | Except.ok none => true
  | Except.ok (some rows) => !rows.any grid_row_has_content

/-- Files kept by the filter loop of `process_excel_files_batch` lines
112-121: a split file joins `split_files` exactly when `_is_excel_empty` is
False for it. -/
def valid_split_files (files : List String)
    (inspect : String → Except String (Option (List (List (Option String))))) :
    List String :=
  files.filter (fun f => !is_excel_empty (inspect f))

/-- Files deleted by the same loop (the `os.remove` branch). -/
def removed_split_files (files : List String)
    (inspect : String → Except String (Option (List (List (Option String))))) :
    List String :=
  files.filter (fun f => is_excel_empty (inspect f))

/-! ## Claim C10: unreadable sheets are treated as non-empty and retained -/

/-- C10: a split sheet file whose emptiness inspection raises is reported
non-empty (`_is_excel_empty` returns False), so the batch loop keeps it among
the files passed on to layout classification and never deletes it as an empty
sheet. -/
theorem unreadable_sheet_retained
    (inspect : String → Except String (Option (List (List (Option String)))))
    (f : String) (files : List String) (e : String)
    (herr : inspect f = Except.error e) (hmem : f ∈ files) :
    is_excel_empty (inspect f) = false ∧
    f ∈ valid_split_files files inspect ∧
    f ∉ removed_split_files files inspect := by
  have hfalse : is_excel_empty (inspect f) = false := by
    rw [herr]
    rfl
  refine ⟨hfalse, ?_, ?_⟩
  · exact List.mem_filter.mpr ⟨hmem, by simp [hfalse]⟩
  · intro hcon
    have hflag := (List.mem_filter.mp hcon).2
    rw [hfalse] at hflag
    cases hflag

/-- Witness for `unreadable_sheet_retained`: a single split file whose
inspection raises an xlwings error. -/
theorem unreadable_sheet_retained_witness :
    is_excel_empty
        ((fun _ =>
            (Except.error "xlwings error" :
              Except String (Option (List (List (Option String)))))) "s1.xlsx")
      = false ∧
    "s1.xlsx" ∈ valid_split_files ["s1.xlsx"] (fun _ => Except.error "xlwings error") ∧
    "s1.xlsx" ∉ removed_split_files ["s1.xlsx"] (fun _ => Except.error "xlwings error") :=
  unreadable_sheet_retained (fun _ => Except.error "xlwings error") "s1.xlsx"
    ["s1.xlsx"] "xlwings error" rfl (by simp)

end GuiPySide6
